import Mathlib

/-!
Shallow embedding of the crop-disease diagnosis HTTP service (app/main.py and
app/models.py) and proofs about its two endpoint handlers.

Modelling conventions:
* Image bytes are a `List Nat`; no byte-level operation occurs in the handlers.
* The prediction collaborator `predict_disease` (app/core/predict.py, treated
  as a black box by the design) is a function parameter returning
  `(disease_info, confidence, error)`; the Python error value (a string or
  `None`) is an `Option String`, and Python truthiness of that value is
  "is `some e` with `e` nonempty".
* `requests.get` + `raise_for_status` is a function parameter
  `fetch : String → Except String Bytes`; a network failure or a non-2xx
  response is the `Except.error` case carrying the exception text.
* PIL `Image.open`/`verify` is a parameter `verify : Bytes → Except String Unit`
  whose `Except.error` case carries the exception text.
* An `HTTPException status detail` response and the `ErrorResponse` body it is
  rendered as are `Response.httpError status detail`; a successful return of a
  `DiagnosisResult` is `Response.ok` (HTTP 200).
* Python `round(x, 2)` is round-half-to-even at two decimals on exact
  rationals.
* Each handler also returns the list of externally visible steps it performed
  (URL fetch, image validation, prediction call), in order, so that claims of
  the form "the collaborator is never called" are expressible.
-/

/-- Image bytes as passed between the handlers and their collaborators. -/
abbrev Bytes := List Nat

/-- Model of `DiseaseInfo` from app/models.py. -/
structure DiseaseInfo where
  name : String
  summary : Option String
  solution : Option String
deriving DecidableEq, Repr

/-- Model of `DiagnosisResult` from app/models.py; `confidence` is an exact
rational standing for the Python float. -/
structure DiagnosisResult where
  filename : String
  confidence : ℚ
  disease_info : DiseaseInfo
deriving DecidableEq, Repr

/-- Model of `AnalysisRequest` from app/models.py. -/
structure AnalysisRequest where
  image_url : String
deriving DecidableEq, Repr

/-- The parts of a FastAPI `UploadFile` the upload handler reads: the MIME
content type, the client-supplied file name, and the file bytes. -/
structure UploadFile where
  content_type : String
  filename : String
  file_bytes : Bytes
deriving DecidableEq, Repr

/-- Outcome of a handler: a 200 response carrying a `DiagnosisResult`, or an
`HTTPException` with a status code and a detail string. -/
inductive Response where
  | ok : DiagnosisResult → Response
  | httpError : Nat → String → Response
deriving DecidableEq, Repr

/-- HTTP status code of a response (FastAPI returns 200 on a plain return). -/
def statusOf : Response → Nat
  | Response.ok _ => 200
  | Response.httpError s _ => s

/-- Error detail of a response, `none` on success. -/
def detailOf : Response → Option String
  | Response.ok _ => none
  | Response.httpError _ d => some d

/-- The `DiagnosisResult` carried by a 200 response, `none` otherwise. -/
def resultOf : Response → Option DiagnosisResult
  | Response.ok r => some r
  | Response.httpError _ _ => none

/-- Confidence field of a successful response. -/
def confidenceOf (r : Response) : Option ℚ :=
  (resultOf r).map DiagnosisResult.confidence

/-- Filename field of a successful response. -/
def filenameOf (r : Response) : Option String :=
  (resultOf r).map DiagnosisResult.filename

/-- Externally visible steps a handler performs, in order: the URL fetch, the
PIL image validation, and the call to the prediction collaborator (recorded
with the arguments it receives). -/
inductive Step where
  | fetchAttempt : Step
  | validateAttempt : Step
  | predictCall (crop_name : String) (image_bytes : Bytes) : Step
deriving DecidableEq, Repr

/-- Whether a trace contains a call to the prediction collaborator. -/
def calledPredict : List Step → Bool
  | [] => false
  | Step.predictCall _ _ :: _ => true
  | _ :: rest => calledPredict rest

/-- Python `needle in hay` on strings, at the level of code-point lists:
`needle` occurs as a contiguous subsequence of `hay`. -/
def pyIn (needle : List Char) : List Char → Bool
  | [] => needle.isEmpty
  | c :: rest => needle.isPrefixOf (c :: rest) || pyIn needle rest

/-- Python `needle in hay` on strings. -/
def strIn (needle hay : String) : Bool :=
  pyIn needle.data hay.data

/-- Python `s.startswith(pre)`. -/
def pyStartsWith (s pre : String) : Bool :=
  pre.data.isPrefixOf s.data

/-- Python `s.split(sep)` for a one-character separator: all pieces between
occurrences of `sep`, empty pieces kept, always at least one piece. -/
def pySplit (sep : Char) : List Char → List (List Char)
  | [] => [[]]
  | c :: rest =>
      if c = sep then
        [] :: pySplit sep rest
      else
        match pySplit sep rest with
        | [] => [[c]]
        | piece :: pieces => (c :: piece) :: pieces

/-- Python `s.split(sep)[-1]`: the last piece of the split (`split` never
returns an empty list, so the default is never taken). -/
def lastSeg (sep : Char) (s : List Char) : List Char :=
  (pySplit sep s).getLastD []

/-- The expression `request.image_url.split("/")[-1]` of app/main.py. -/
def filenameFromUrl (url : String) : String :=
  String.mk (lastSeg '/' url.data)

/-- Round-half-to-even of a rational to an integer, the rounding Python's
built-in `round` uses. -/
def rndHalfEven (q : ℚ) : ℤ :=
  if q - ⌊q⌋ < 1 / 2 then ⌊q⌋
  else if 1 / 2 < q - ⌊q⌋ then ⌊q⌋ + 1
  else if ⌊q⌋ % 2 = 0 then ⌊q⌋ else ⌊q⌋ + 1

/-- Python `round(x, 2)` on the exact rational value. -/
def pyRound2 (q : ℚ) : ℚ :=
  (rndHalfEven (q * 100) : ℚ) / 100

/-- Handler of `POST /diagnose/{crop_name}` (app/main.py, `diagnose_crop`),
parametrised by the prediction collaborator. Returns the response together
with the trace of collaborator calls. -/
def diagnose_crop
    (predict_disease : String → Bytes → DiseaseInfo × ℚ × Option String)
    (crop_name : String) (file : UploadFile) : Response × List Step :=
  if !(pyStartsWith file.content_type "image/") then
    (Response.httpError 400 "이미지 파일만 업로드할 수 있습니다.", [])
  else
    match predict_disease crop_name file.file_bytes with
    | (disease_info, confidence, error) =>
      let trace := [Step.predictCall crop_name file.file_bytes]
      let success :=
        (Response.ok ⟨file.filename, pyRound2 confidence, disease_info⟩, trace)
      match error with
      | none => success
      | some e =>
        if e ≠ "" then
          if strIn "지원되지 않는" e then
            (Response.httpError 404 e, trace)
          else if strIn "모델 파일이 없습니다" e || strIn "불러오는 데 실패" e then
            (Response.httpError 404 e, trace)
          else
            (Response.httpError 500 e, trace)
        else success

/-- Handler of `POST /diagnose-by-url/{crop_name}` (app/main.py,
`diagnose_by_url`), parametrised by the prediction collaborator, the URL
fetcher (`requests.get` + `raise_for_status`) and the PIL image check. -/
def diagnose_by_url
    (predict_disease : String → Bytes → DiseaseInfo × ℚ × Option String)
    (fetch : String → Except String Bytes)
    (verify : Bytes → Except String Unit)
    (crop_name : String) (request : AnalysisRequest) : Response × List Step :=
  match fetch request.image_url with
  | Except.error e =>
      (Response.httpError 400 ("이미지 URL에서 파일을 다운로드할 수 없습니다: " ++ e),
       [Step.fetchAttempt])
  | Except.ok image_bytes =>
    match verify image_bytes with
    | Except.error e =>
        (Response.httpError 400 ("유효한 이미지 파일이 아닙니다: " ++ e),
         [Step.fetchAttempt, Step.validateAttempt])
    | Except.ok _ =>
      match predict_disease crop_name image_bytes with
      | (disease_info, confidence, error) =>
        let trace := [Step.fetchAttempt, Step.validateAttempt,
                      Step.predictCall crop_name image_bytes]
        let success :=
          (Response.ok ⟨filenameFromUrl request.image_url,
                        pyRound2 confidence, disease_info⟩, trace)
        match error with
        | none => success
        | some e =>
          if e ≠ "" then
            if strIn "지원되지 않는" e then
              (Response.httpError 404 e, trace)
            else if strIn "모델 파일이 없습니다" e || strIn "불러오는 데 실패" e then
              (Response.httpError 404 e, trace)
            else
              (Response.httpError 500 e, trace)
          else success

/-- A prediction collaborator with a fixed result. -/
def constPredict (di : DiseaseInfo) (conf : ℚ) (err : Option String) :
    String → Bytes → DiseaseInfo × ℚ × Option String :=
  fun _ _ => (di, conf, err)

/-- A URL fetcher with a fixed outcome. -/
def constFetch (r : Except String Bytes) : String → Except String Bytes :=
  fun _ => r

/-- An image check with a fixed outcome. -/
def constVerify (r : Except String Unit) : Bytes → Except String Unit :=
  fun _ => r

/-- Sample disease metadata used in witness instances. -/
def sampleDi : DiseaseInfo :=
  ⟨"흰가루병", some "잎에 흰 가루 증상", some "환기를 시킨다"⟩

/-- Sample image bytes used in witness instances. -/
def sampleBytes : Bytes := [137, 80, 78, 71]

example :
    (diagnose_crop (constPredict sampleDi 50 (some "지원되지 않는 작물"))
        "pumpkin" ⟨"image/jpeg", "leaf.jpg", sampleBytes⟩).1 =
      Response.httpError 404 "지원되지 않는 작물" := rfl

example :
    (diagnose_crop (constPredict sampleDi 50 none)
        "pumpkin" ⟨"image/jpeg", "leaf.jpg", sampleBytes⟩).1 =
      Response.ok ⟨"leaf.jpg", pyRound2 50, sampleDi⟩ := rfl

example :
    (diagnose_by_url (constPredict sampleDi 50 none)
        (constFetch (Except.ok sampleBytes)) (constVerify (Except.ok ()))
        "pumpkin" ⟨"http://h/a/img.jpg"⟩).1 =
      Response.ok ⟨"img.jpg", pyRound2 50, sampleDi⟩ := rfl

example : filenameFromUrl "http://h/a/img.jpg" = "img.jpg" := rfl

example : strIn "모델 파일이 없습니다" "작물 모델 파일이 없습니다." = true := rfl


/-- The default of `getLastD` is irrelevant on a nonempty list. -/
theorem getLastD_irrel {α : Type} :
    ∀ (l : List α), l ≠ [] → ∀ d₁ d₂ : α, l.getLastD d₁ = l.getLastD d₂
  | [], h, _, _ => absurd rfl h
  | [_], _, _, _ => rfl
  | a :: b :: t, _, d₁, d₂ => by
      have h1 : (a :: b :: t).getLastD d₁ = (b :: t).getLastD a :=
        List.getLastD_cons ..
      have h2 : (a :: b :: t).getLastD d₂ = (b :: t).getLastD a :=
        List.getLastD_cons ..
      rw [h1, h2]

/-- `pySplit` always returns at least one piece. -/
theorem pySplit_ne_nil (sep : Char) (s : List Char) : pySplit sep s ≠ [] := by
  cases s with
  | nil => simp [pySplit]
  | cons c rest =>
      rw [pySplit]
      split
      · simp
      · cases h : pySplit sep rest <;> simp

/-- Splitting a list that does not contain the separator yields that list as
the single piece. -/
theorem pySplit_of_not_mem {sep : Char} :
    ∀ {s : List Char}, sep ∉ s → pySplit sep s = [s] := by
  intro s
  induction s with
  | nil => intro _; rfl
  | cons c rest ih =>
      intro h
      have hc : ¬ c = sep := fun hcs => h (hcs ▸ List.mem_cons_self c rest)
      have hr : sep ∉ rest := fun hm => h (List.mem_cons_of_mem c hm)
      rw [pySplit, if_neg hc, ih hr]

/-- Splitting a list that contains the separator yields at least two pieces. -/
theorem two_le_pySplit_length {sep : Char} :
    ∀ {s : List Char}, sep ∈ s → 2 ≤ (pySplit sep s).length := by
  intro s
  induction s with
  | nil => intro h; cases h
  | cons c rest ih =>
      intro h
      rw [pySplit]
      by_cases hc : c = sep
      · rw [if_pos hc]
        have := pySplit_ne_nil sep rest
        have hlen : 1 ≤ (pySplit sep rest).length := by
          cases hp : pySplit sep rest with
          | nil => exact absurd hp this
          | cons a l => simp
        simpa using hlen
      · rw [if_neg hc]
        have hm : sep ∈ rest := by
          rcases List.mem_cons.mp h with h1 | h2
          · exact absurd h1.symm hc
          · exact h2
        have h2 := ih hm
        cases hp : pySplit sep rest with
        | nil => exact absurd hp (pySplit_ne_nil sep rest)
        | cons piece pieces =>
            rw [hp] at h2
            simpa using h2

/-- Recursive characterisation of the last piece of a Python split. -/
theorem lastSeg_cons (sep c : Char) (s : List Char) :
    lastSeg sep (c :: s) =
      if c = sep ∨ sep ∈ s then lastSeg sep s else c :: s := by
  by_cases hc : c = sep
  · rw [lastSeg, pySplit, if_pos hc, if_pos (Or.inl hc), List.getLastD_cons]
    rfl
  · by_cases hm : sep ∈ s
    · rw [if_pos (Or.inr hm), lastSeg, pySplit, if_neg hc]
      have h2 := two_le_pySplit_length hm
      cases hp : pySplit sep s with
      | nil => exact absurd hp (pySplit_ne_nil sep s)
      | cons piece pieces =>
          rw [hp] at h2
          have hne : pieces ≠ [] := by
            cases pieces with
            | nil => simp at h2
            | cons a l => simp
          show ((c :: piece) :: pieces).getLastD [] = lastSeg sep s
          rw [List.getLastD_cons, lastSeg, hp, List.getLastD_cons]
          exact getLastD_irrel pieces hne _ _
    · have hor : ¬ (c = sep ∨ sep ∈ s) := by
        intro hor
        rcases hor with h1 | h2
        · exact hc h1
        · exact hm h2
      rw [if_neg hor, lastSeg, pySplit, if_neg hc, pySplit_of_not_mem hm]
      rfl

/-- The last piece of a Python split on `sep` contains no `sep`, and is a
suffix of the input lying strictly after its last `sep` (it is the whole
input when no `sep` occurs). -/
theorem lastSeg_spec (sep : Char) (s : List Char) :
    sep ∉ lastSeg sep s ∧
      (s = lastSeg sep s ∨ ∃ p, s = p ++ sep :: lastSeg sep s) := by
  induction s with
  | nil =>
      constructor
      · intro h; cases h
      · exact Or.inl rfl
  | cons c rest ih =>
      obtain ⟨ih1, ih2⟩ := ih
      rw [lastSeg_cons]
      by_cases h : c = sep ∨ sep ∈ rest
      · rw [if_pos h]
        refine ⟨ih1, Or.inr ?_⟩
        rcases ih2 with heq | ⟨p, hp⟩
        · rcases h with h1 | h2
          · refine ⟨[], ?_⟩
            rw [List.nil_append, h1]
            exact congrArg (sep :: ·) heq
          · exact absurd (heq ▸ h2) ih1
        · refine ⟨c :: p, ?_⟩
          rw [List.cons_append]
          exact congrArg (c :: ·) hp
      · rw [if_neg h]
        push_neg at h
        constructor
        · intro hmem
          rcases List.mem_cons.mp hmem with h1 | h2
          · exact h.1 h1.symm
          · exact h.2 h2
        · exact Or.inl rfl

/-- Round-half-to-even of a nonnegative rational is nonnegative. -/
theorem rndHalfEven_nonneg {q : ℚ} (h : 0 ≤ q) : 0 ≤ rndHalfEven q := by
  have hfl : 0 ≤ ⌊q⌋ := Int.floor_nonneg.mpr h
  rw [rndHalfEven]
  split_ifs <;> omega

/-- Round-half-to-even of a rational bounded by an integer is bounded by that
integer. -/
theorem rndHalfEven_le {q : ℚ} {N : ℤ} (h : q ≤ (N : ℚ)) : rndHalfEven q ≤ N := by
  have hfl : ⌊q⌋ ≤ N := by
    have := Int.floor_le_floor h
    rwa [Int.floor_intCast] at this
  rw [rndHalfEven]
  split_ifs with h1 h2 h3
  · exact hfl
  · have hlt : (⌊q⌋ : ℚ) < q := by linarith
    have : ⌊q⌋ < N := by
      have hq : (⌊q⌋ : ℚ) < (N : ℚ) := lt_of_lt_of_le hlt h
      exact_mod_cast hq
    omega
  · exact hfl
  · have hlt : (⌊q⌋ : ℚ) < q := by
      push_neg at h1
      linarith
    have : ⌊q⌋ < N := by
      have hq : (⌊q⌋ : ℚ) < (N : ℚ) := lt_of_lt_of_le hlt h
      exact_mod_cast hq
    omega

/-- Python `round(x, 2)` of a nonnegative value is nonnegative. -/
theorem pyRound2_nonneg {q : ℚ} (h : 0 ≤ q) : 0 ≤ pyRound2 q := by
  rw [pyRound2]
  have h1 : 0 ≤ rndHalfEven (q * 100) := rndHalfEven_nonneg (by linarith)
  have h2 : (0 : ℚ) ≤ (rndHalfEven (q * 100) : ℚ) := by exact_mod_cast h1
  positivity

/-- Python `round(x, 2)` of a value bounded by 100 is bounded by 100. -/
theorem pyRound2_le_100 {q : ℚ} (h : q ≤ 100) : pyRound2 q ≤ 100 := by
  rw [pyRound2]
  have h1 : q * 100 ≤ ((10000 : ℤ) : ℚ) := by push_cast; linarith
  have h2 : rndHalfEven (q * 100) ≤ 10000 := rndHalfEven_le h1
  have h3 : (rndHalfEven (q * 100) : ℚ) ≤ 10000 := by exact_mod_cast h2
  rw [div_le_iff₀ (by norm_num : (0 : ℚ) < 100)]
  linarith

/-- C2: for every upload request whose file content type does not start with
"image/", the upload endpoint returns status 400 and the prediction
collaborator is never called. -/
theorem upload_non_image_returns_400
    (predict : String → Bytes → DiseaseInfo × ℚ × Option String)
    (crop ctype fname : String) (bytes : Bytes)
    (hct : pyStartsWith ctype "image/" = false) :
    statusOf (diagnose_crop predict crop ⟨ctype, fname, bytes⟩).1 = 400 ∧
    calledPredict (diagnose_crop predict crop ⟨ctype, fname, bytes⟩).2 = false := by
  simp [diagnose_crop, hct, statusOf, calledPredict]

/-- Witness for C2 at a concrete non-image upload. -/
theorem upload_non_image_returns_400_witness :
    pyStartsWith "application/pdf" "image/" = false ∧
    (statusOf (diagnose_crop (constPredict sampleDi 50 none) "pumpkin"
        ⟨"application/pdf", "doc.pdf", sampleBytes⟩).1 = 400 ∧
     calledPredict (diagnose_crop (constPredict sampleDi 50 none) "pumpkin"
        ⟨"application/pdf", "doc.pdf", sampleBytes⟩).2 = false) :=
  ⟨rfl, upload_non_image_returns_400 (constPredict sampleDi 50 none)
    "pumpkin" "application/pdf" "doc.pdf" sampleBytes rfl⟩

/-- C3: for every URL request whose fetch fails (a network error or a non-2xx
response turned into an exception by `raise_for_status`), the URL endpoint
returns status 400, and neither the image validation step nor the prediction
collaborator is reached. -/
theorem url_fetch_error_returns_400
    (predict : String → Bytes → DiseaseInfo × ℚ × Option String)
    (fetch : String → Except String Bytes)
    (verify : Bytes → Except String Unit)
    (crop url e : String)
    (hfetch : fetch url = Except.error e) :
    statusOf (diagnose_by_url predict fetch verify crop ⟨url⟩).1 = 400 ∧
    Step.validateAttempt ∉ (diagnose_by_url predict fetch verify crop ⟨url⟩).2 ∧
    calledPredict (diagnose_by_url predict fetch verify crop ⟨url⟩).2 = false := by
  simp [diagnose_by_url, hfetch, statusOf, calledPredict]

/-- Witness for C3 at a concrete failing fetch. -/
theorem url_fetch_error_returns_400_witness :
    constFetch (Except.error "timeout") "http://h/img.jpg" =
      Except.error "timeout" ∧
    (statusOf (diagnose_by_url (constPredict sampleDi 50 none)
        (constFetch (Except.error "timeout")) (constVerify (Except.ok ()))
        "pumpkin" ⟨"http://h/img.jpg"⟩).1 = 400 ∧
     Step.validateAttempt ∉ (diagnose_by_url (constPredict sampleDi 50 none)
        (constFetch (Except.error "timeout")) (constVerify (Except.ok ()))
        "pumpkin" ⟨"http://h/img.jpg"⟩).2 ∧
     calledPredict (diagnose_by_url (constPredict sampleDi 50 none)
        (constFetch (Except.error "timeout")) (constVerify (Except.ok ()))
        "pumpkin" ⟨"http://h/img.jpg"⟩).2 = false) :=
  ⟨rfl, url_fetch_error_returns_400 (constPredict sampleDi 50 none)
    (constFetch (Except.error "timeout")) (constVerify (Except.ok ()))
    "pumpkin" "http://h/img.jpg" "timeout" rfl⟩

/-- C4: for every URL request whose fetched bytes do not decode as a valid
image, the URL endpoint returns status 400 and the prediction collaborator is
never called; the trace shows the validity check happening after the fetch and
before any prediction. -/
theorem url_invalid_image_returns_400
    (predict : String → Bytes → DiseaseInfo × ℚ × Option String)
    (fetch : String → Except String Bytes)
    (verify : Bytes → Except String Unit)
    (crop url e : String) (bytes : Bytes)
    (hfetch : fetch url = Except.ok bytes)
    (hver : verify bytes = Except.error e) :
    statusOf (diagnose_by_url predict fetch verify crop ⟨url⟩).1 = 400 ∧
    (diagnose_by_url predict fetch verify crop ⟨url⟩).2 =
      [Step.fetchAttempt, Step.validateAttempt] ∧
    calledPredict (diagnose_by_url predict fetch verify crop ⟨url⟩).2 = false := by
  simp [diagnose_by_url, hfetch, hver, statusOf, calledPredict]

/-- Witness for C4 at concrete malformed image bytes. -/
theorem url_invalid_image_returns_400_witness :
    constFetch (Except.ok sampleBytes) "http://h/img.jpg" =
      Except.ok sampleBytes ∧
    constVerify (Except.error "cannot identify image file") sampleBytes =
      Except.error "cannot identify image file" ∧
    (statusOf (diagnose_by_url (constPredict sampleDi 50 none)
        (constFetch (Except.ok sampleBytes))
        (constVerify (Except.error "cannot identify image file"))
        "pumpkin" ⟨"http://h/img.jpg"⟩).1 = 400 ∧
     (diagnose_by_url (constPredict sampleDi 50 none)
        (constFetch (Except.ok sampleBytes))
        (constVerify (Except.error "cannot identify image file"))
        "pumpkin" ⟨"http://h/img.jpg"⟩).2 =
       [Step.fetchAttempt, Step.validateAttempt] ∧
     calledPredict (diagnose_by_url (constPredict sampleDi 50 none)
        (constFetch (Except.ok sampleBytes))
        (constVerify (Except.error "cannot identify image file"))
        "pumpkin" ⟨"http://h/img.jpg"⟩).2 = false) :=
  ⟨rfl, rfl, url_invalid_image_returns_400 (constPredict sampleDi 50 none)
    (constFetch (Except.ok sampleBytes))
    (constVerify (Except.error "cannot identify image file"))
    "pumpkin" "http://h/img.jpg" "cannot identify image file" sampleBytes
    rfl rfl⟩

/-- C1: for every nonempty error string returned by the prediction
collaborator, both endpoints map it to an HTTP status by substring presence:
404 when it contains the unsupported-crop marker, the model-file-missing
marker, or the load-failure marker, and 500 for any other nonempty error; in
every case the response detail carries the collaborator's error string. -/
theorem error_substring_status_mapping
    (predict : String → Bytes → DiseaseInfo × ℚ × Option String)
    (fetch : String → Except String Bytes)
    (verify : Bytes → Except String Unit)
    (crop ctype fname url : String) (bytes : Bytes)
    (di : DiseaseInfo) (conf : ℚ) (err : String)
    (herr : err ≠ "")
    (hct : pyStartsWith ctype "image/" = true)
    (hpred : predict crop bytes = (di, conf, some err))
    (hfetch : fetch url = Except.ok bytes)
    (hver : verify bytes = Except.ok ()) :
    (statusOf (diagnose_crop predict crop ⟨ctype, fname, bytes⟩).1 =
      if strIn "지원되지 않는" err || strIn "모델 파일이 없습니다" err ||
          strIn "불러오는 데 실패" err then 404 else 500) ∧
    detailOf (diagnose_crop predict crop ⟨ctype, fname, bytes⟩).1 = some err ∧
    (statusOf (diagnose_by_url predict fetch verify crop ⟨url⟩).1 =
      if strIn "지원되지 않는" err || strIn "모델 파일이 없습니다" err ||
          strIn "불러오는 데 실패" err then 404 else 500) ∧
    detailOf (diagnose_by_url predict fetch verify crop ⟨url⟩).1 = some err := by
  cases h1 : strIn "지원되지 않는" err <;>
    cases h2 : strIn "모델 파일이 없습니다" err <;>
      cases h3 : strIn "불러오는 데 실패" err <;>
        simp [diagnose_crop, diagnose_by_url, hct, hpred, hfetch, hver,
          herr, h1, h2, h3, statusOf, detailOf]

/-- Witness for C1 at a concrete unsupported-crop error string. -/
theorem error_substring_status_mapping_witness :
    "지원되지 않는 작물입니다." ≠ "" ∧
    pyStartsWith "image/jpeg" "image/" = true ∧
    ((statusOf (diagnose_crop
        (constPredict sampleDi 50 (some "지원되지 않는 작물입니다."))
        "pumpkin" ⟨"image/jpeg", "leaf.jpg", sampleBytes⟩).1 =
      if strIn "지원되지 않는" "지원되지 않는 작물입니다." ||
          strIn "모델 파일이 없습니다" "지원되지 않는 작물입니다." ||
          strIn "불러오는 데 실패" "지원되지 않는 작물입니다." then 404 else 500) ∧
     detailOf (diagnose_crop
        (constPredict sampleDi 50 (some "지원되지 않는 작물입니다."))
        "pumpkin" ⟨"image/jpeg", "leaf.jpg", sampleBytes⟩).1 =
       some "지원되지 않는 작물입니다." ∧
     (statusOf (diagnose_by_url
        (constPredict sampleDi 50 (some "지원되지 않는 작물입니다."))
        (constFetch (Except.ok sampleBytes)) (constVerify (Except.ok ()))
        "pumpkin" ⟨"http://h/img.jpg"⟩).1 =
      if strIn "지원되지 않는" "지원되지 않는 작물입니다." ||
          strIn "모델 파일이 없습니다" "지원되지 않는 작물입니다." ||
          strIn "불러오는 데 실패" "지원되지 않는 작물입니다." then 404 else 500) ∧
     detailOf (diagnose_by_url
        (constPredict sampleDi 50 (some "지원되지 않는 작물입니다."))
        (constFetch (Except.ok sampleBytes)) (constVerify (Except.ok ()))
        "pumpkin" ⟨"http://h/img.jpg"⟩).1 =
       some "지원되지 않는 작물입니다.") :=
  ⟨by decide, rfl, error_substring_status_mapping
    (constPredict sampleDi 50 (some "지원되지 않는 작물입니다."))
    (constFetch (Except.ok sampleBytes)) (constVerify (Except.ok ()))
    "pumpkin" "image/jpeg" "leaf.jpg" "http://h/img.jpg" sampleBytes
    sampleDi 50 "지원되지 않는 작물입니다." (by decide) rfl rfl rfl rfl⟩

/-- C8: the two endpoints apply the same error-to-status mapping: once both
handlers reach the prediction call with the same collaborator output, they
return the same HTTP status code and the same error detail. -/
theorem endpoints_error_mapping_agree
    (predict : String → Bytes → DiseaseInfo × ℚ × Option String)
    (fetch : String → Except String Bytes)
    (verify : Bytes → Except String Unit)
    (crop ctype fname url : String) (bytes : Bytes)
    (di : DiseaseInfo) (conf : ℚ) (err : Option String)
    (hct : pyStartsWith ctype "image/" = true)
    (hpred : predict crop bytes = (di, conf, err))
    (hfetch : fetch url = Except.ok bytes)
    (hver : verify bytes = Except.ok ()) :
    statusOf (diagnose_crop predict crop ⟨ctype, fname, bytes⟩).1 =
      statusOf (diagnose_by_url predict fetch verify crop ⟨url⟩).1 ∧
    detailOf (diagnose_crop predict crop ⟨ctype, fname, bytes⟩).1 =
      detailOf (diagnose_by_url predict fetch verify crop ⟨url⟩).1 := by
  cases err with
  | none =>
      simp [diagnose_crop, diagnose_by_url, hct, hpred, hfetch, hver,
        statusOf, detailOf]
  | some e =>
      by_cases he : e = ""
      · simp [diagnose_crop, diagnose_by_url, hct, hpred, hfetch, hver,
          he, statusOf, detailOf]
      · cases h1 : strIn "지원되지 않는" e <;>
          cases h2 : strIn "모델 파일이 없습니다" e <;>
            cases h3 : strIn "불러오는 데 실패" e <;>
              simp [diagnose_crop, diagnose_by_url, hct, hpred, hfetch, hver,
                he, h1, h2, h3, statusOf, detailOf]

/-- Witness for C8 at a concrete internal error string. -/
theorem endpoints_error_mapping_agree_witness :
    pyStartsWith "image/png" "image/" = true ∧
    (statusOf (diagnose_crop (constPredict sampleDi 50 (some "예측 실패"))
        "pumpkin" ⟨"image/png", "leaf.png", sampleBytes⟩).1 =
      statusOf (diagnose_by_url (constPredict sampleDi 50 (some "예측 실패"))
        (constFetch (Except.ok sampleBytes)) (constVerify (Except.ok ()))
        "pumpkin" ⟨"http://h/img.png"⟩).1 ∧
     detailOf (diagnose_crop (constPredict sampleDi 50 (some "예측 실패"))
        "pumpkin" ⟨"image/png", "leaf.png", sampleBytes⟩).1 =
      detailOf (diagnose_by_url (constPredict sampleDi 50 (some "예측 실패"))
        (constFetch (Except.ok sampleBytes)) (constVerify (Except.ok ()))
        "pumpkin" ⟨"http://h/img.png"⟩).1) :=
  ⟨rfl, endpoints_error_mapping_agree (constPredict sampleDi 50 (some "예측 실패"))
    (constFetch (Except.ok sampleBytes)) (constVerify (Except.ok ()))
    "pumpkin" "image/png" "leaf.png" "http://h/img.png" sampleBytes
    sampleDi 50 (some "예측 실패") rfl rfl rfl rfl⟩

/-- C9: the failure branch triggers only on a truthy error value: when the
collaborator returns `None` or an empty error string together with arbitrary
disease info and confidence, both handlers take the success path and return a
200 `DiagnosisResult` built from those values. -/
theorem empty_error_takes_success_path
    (predict : String → Bytes → DiseaseInfo × ℚ × Option String)
    (fetch : String → Except String Bytes)
    (verify : Bytes → Except String Unit)
    (crop ctype fname url : String) (bytes : Bytes)
    (di : DiseaseInfo) (conf : ℚ) (err : Option String)
    (herr : err = none ∨ err = some "")
    (hct : pyStartsWith ctype "image/" = true)
    (hpred : predict crop bytes = (di, conf, err))
    (hfetch : fetch url = Except.ok bytes)
    (hver : verify bytes = Except.ok ()) :
    statusOf (diagnose_crop predict crop ⟨ctype, fname, bytes⟩).1 = 200 ∧
    resultOf (diagnose_crop predict crop ⟨ctype, fname, bytes⟩).1 =
      some ⟨fname, pyRound2 conf, di⟩ ∧
    statusOf (diagnose_by_url predict fetch verify crop ⟨url⟩).1 = 200 ∧
    resultOf (diagnose_by_url predict fetch verify crop ⟨url⟩).1 =
      some ⟨filenameFromUrl url, pyRound2 conf, di⟩ := by
  rcases herr with h | h <;>
    subst h <;>
      simp [diagnose_crop, diagnose_by_url, hct, hpred, hfetch, hver,
        statusOf, resultOf]

/-- Witness for C9 at a concrete empty error string. -/
theorem empty_error_takes_success_path_witness :
    ((some "" : Option String) = none ∨ (some "" : Option String) = some "") ∧
    pyStartsWith "image/jpeg" "image/" = true ∧
    (statusOf (diagnose_crop (constPredict sampleDi 50 (some "")) "pumpkin"
        ⟨"image/jpeg", "leaf.jpg", sampleBytes⟩).1 = 200 ∧
     resultOf (diagnose_crop (constPredict sampleDi 50 (some "")) "pumpkin"
        ⟨"image/jpeg", "leaf.jpg", sampleBytes⟩).1 =
       some ⟨"leaf.jpg", pyRound2 50, sampleDi⟩ ∧
     statusOf (diagnose_by_url (constPredict sampleDi 50 (some ""))
        (constFetch (Except.ok sampleBytes)) (constVerify (Except.ok ()))
        "pumpkin" ⟨"http://h/img.jpg"⟩).1 = 200 ∧
     resultOf (diagnose_by_url (constPredict sampleDi 50 (some ""))
        (constFetch (Except.ok sampleBytes)) (constVerify (Except.ok ()))
        "pumpkin" ⟨"http://h/img.jpg"⟩).1 =
       some ⟨filenameFromUrl "http://h/img.jpg", pyRound2 50, sampleDi⟩) :=
  ⟨Or.inr rfl, rfl, empty_error_takes_success_path
    (constPredict sampleDi 50 (some ""))
    (constFetch (Except.ok sampleBytes)) (constVerify (Except.ok ()))
    "pumpkin" "image/jpeg" "leaf.jpg" "http://h/img.jpg" sampleBytes
    sampleDi 50 (some "") (Or.inr rfl) rfl rfl rfl rfl⟩

/-- C5: on either endpoint, when the collaborator returns no error, the
confidence of the returned `DiagnosisResult` is the collaborator's confidence
rounded to two decimal places. -/
theorem success_confidence_rounded
    (predict : String → Bytes → DiseaseInfo × ℚ × Option String)
    (fetch : String → Except String Bytes)
    (verify : Bytes → Except String Unit)
    (crop ctype fname url : String) (bytes : Bytes)
    (di : DiseaseInfo) (conf : ℚ)
    (hct : pyStartsWith ctype "image/" = true)
    (hpred : predict crop bytes = (di, conf, none))
    (hfetch : fetch url = Except.ok bytes)
    (hver : verify bytes = Except.ok ()) :
    confidenceOf (diagnose_crop predict crop ⟨ctype, fname, bytes⟩).1 =
      some (pyRound2 conf) ∧
    confidenceOf (diagnose_by_url predict fetch verify crop ⟨url⟩).1 =
      some (pyRound2 conf) := by
  simp [diagnose_crop, diagnose_by_url, hct, hpred, hfetch, hver,
    confidenceOf, resultOf]

/-- Witness for C5 at a concrete successful prediction. -/
theorem success_confidence_rounded_witness :
    pyStartsWith "image/jpeg" "image/" = true ∧
    (confidenceOf (diagnose_crop (constPredict sampleDi (977 / 10) none)
        "pumpkin" ⟨"image/jpeg", "leaf.jpg", sampleBytes⟩).1 =
      some (pyRound2 (977 / 10)) ∧
     confidenceOf (diagnose_by_url (constPredict sampleDi (977 / 10) none)
        (constFetch (Except.ok sampleBytes)) (constVerify (Except.ok ()))
        "pumpkin" ⟨"http://h/img.jpg"⟩).1 = some (pyRound2 (977 / 10))) :=
  ⟨rfl, success_confidence_rounded (constPredict sampleDi (977 / 10) none)
    (constFetch (Except.ok sampleBytes)) (constVerify (Except.ok ()))
    "pumpkin" "image/jpeg" "leaf.jpg" "http://h/img.jpg" sampleBytes
    sampleDi (977 / 10) rfl rfl rfl rfl⟩

/-- C6: when the collaborator reports no error and its confidence lies in
[0, 100] (the range the design assigns to prediction confidences), the
confidence in the `DiagnosisResult` of either endpoint lies in [0, 100]. -/
theorem success_confidence_in_range
    (predict : String → Bytes → DiseaseInfo × ℚ × Option String)
    (fetch : String → Except String Bytes)
    (verify : Bytes → Except String Unit)
    (crop ctype fname url : String) (bytes : Bytes)
    (di : DiseaseInfo) (conf : ℚ)
    (h0 : 0 ≤ conf) (h100 : conf ≤ 100)
    (hct : pyStartsWith ctype "image/" = true)
    (hpred : predict crop bytes = (di, conf, none))
    (hfetch : fetch url = Except.ok bytes)
    (hver : verify bytes = Except.ok ()) :
    confidenceOf (diagnose_crop predict crop ⟨ctype, fname, bytes⟩).1 =
      some (pyRound2 conf) ∧
    confidenceOf (diagnose_by_url predict fetch verify crop ⟨url⟩).1 =
      some (pyRound2 conf) ∧
    0 ≤ pyRound2 conf ∧ pyRound2 conf ≤ 100 := by
  obtain ⟨hc1, hc2⟩ := success_confidence_rounded predict fetch verify
    crop ctype fname url bytes di conf hct hpred hfetch hver
  exact ⟨hc1, hc2, pyRound2_nonneg h0, pyRound2_le_100 h100⟩

/-- Witness for C6 at a concrete in-range confidence. -/
theorem success_confidence_in_range_witness :
    (0 : ℚ) ≤ 977 / 10 ∧ (977 / 10 : ℚ) ≤ 100 ∧
    pyStartsWith "image/jpeg" "image/" = true ∧
    (confidenceOf (diagnose_crop (constPredict sampleDi (977 / 10) none)
        "pumpkin" ⟨"image/jpeg", "leaf.jpg", sampleBytes⟩).1 =
      some (pyRound2 (977 / 10)) ∧
     confidenceOf (diagnose_by_url (constPredict sampleDi (977 / 10) none)
        (constFetch (Except.ok sampleBytes)) (constVerify (Except.ok ()))
        "pumpkin" ⟨"http://h/img.jpg"⟩).1 = some (pyRound2 (977 / 10)) ∧
     0 ≤ pyRound2 (977 / 10) ∧ pyRound2 (977 / 10) ≤ 100) :=
  ⟨by norm_num, by norm_num, rfl, success_confidence_in_range
    (constPredict sampleDi (977 / 10) none)
    (constFetch (Except.ok sampleBytes)) (constVerify (Except.ok ()))
    "pumpkin" "image/jpeg" "leaf.jpg" "http://h/img.jpg" sampleBytes
    sampleDi (977 / 10) (by norm_num) (by norm_num) rfl rfl rfl rfl⟩

/-- C7: for every successful URL request, the filename of the returned
`DiagnosisResult` is the final path segment of the image URL: it contains no
slash and is the suffix of the URL following its last slash (the whole URL
when no slash occurs). -/
theorem url_filename_last_segment
    (predict : String → Bytes → DiseaseInfo × ℚ × Option String)
    (fetch : String → Except String Bytes)
    (verify : Bytes → Except String Unit)
    (crop url : String) (bytes : Bytes)
    (di : DiseaseInfo) (conf : ℚ)
    (hpred : predict crop bytes = (di, conf, none))
    (hfetch : fetch url = Except.ok bytes)
    (hver : verify bytes = Except.ok ()) :
    filenameOf (diagnose_by_url predict fetch verify crop ⟨url⟩).1 =
      some (filenameFromUrl url) ∧
    '/' ∉ (filenameFromUrl url).data ∧
    (url.data = (filenameFromUrl url).data ∨
      ∃ p, url.data = p ++ '/' :: (filenameFromUrl url).data) := by
  obtain ⟨h1, h2⟩ := lastSeg_spec '/' url.data
  refine ⟨?_, h1, h2⟩
  simp [diagnose_by_url, hpred, hfetch, hver, filenameOf, resultOf]

/-- Witness for C7 at a concrete URL. -/
theorem url_filename_last_segment_witness :
    (filenameOf (diagnose_by_url (constPredict sampleDi 50 none)
        (constFetch (Except.ok sampleBytes)) (constVerify (Except.ok ()))
        "pumpkin" ⟨"http://h/a/img.jpg"⟩).1 =
      some (filenameFromUrl "http://h/a/img.jpg") ∧
     '/' ∉ (filenameFromUrl "http://h/a/img.jpg").data ∧
     ("http://h/a/img.jpg".data = (filenameFromUrl "http://h/a/img.jpg").data ∨
       ∃ p, "http://h/a/img.jpg".data =
         p ++ '/' :: (filenameFromUrl "http://h/a/img.jpg").data)) :=
  url_filename_last_segment (constPredict sampleDi 50 none)
    (constFetch (Except.ok sampleBytes)) (constVerify (Except.ok ()))
    "pumpkin" "http://h/a/img.jpg" sampleBytes sampleDi 50 rfl rfl rfl

/-- C10: for every upload whose content type starts with "image/", the upload
endpoint hands the raw bytes to the prediction collaborator without any image
validity check, and never answers 400 itself — whereas on the same malformed
bytes the URL endpoint answers 400 without calling the collaborator. -/
theorem upload_skips_image_validation
    (predict : String → Bytes → DiseaseInfo × ℚ × Option String)
    (fetch : String → Except String Bytes)
    (verify : Bytes → Except String Unit)
    (crop ctype fname url e : String) (bytes : Bytes)
    (hct : pyStartsWith ctype "image/" = true)
    (hfetch : fetch url = Except.ok bytes)
    (hver : verify bytes = Except.error e) :
    (diagnose_crop predict crop ⟨ctype, fname, bytes⟩).2 =
      [Step.predictCall crop bytes] ∧
    statusOf (diagnose_crop predict crop ⟨ctype, fname, bytes⟩).1 ≠ 400 ∧
    statusOf (diagnose_by_url predict fetch verify crop ⟨url⟩).1 = 400 ∧
    calledPredict (diagnose_by_url predict fetch verify crop ⟨url⟩).2 = false := by
  rcases hp : predict crop bytes with ⟨di, conf, err⟩
  refine ⟨?_, ?_, ?_, ?_⟩
  · cases err with
    | none => simp [diagnose_crop, hct, hp]
    | some e2 =>
        simp [diagnose_crop, hct, hp]
        split_ifs <;> simp
  · cases err with
    | none => simp [diagnose_crop, hct, hp, statusOf]
    | some e2 =>
        simp [diagnose_crop, hct, hp, statusOf]
        split_ifs <;> simp [statusOf]
  · simp [diagnose_by_url, hfetch, hver, statusOf]
  · simp [diagnose_by_url, hfetch, hver, calledPredict]

/-- Witness for C10 at concrete malformed bytes with an image content type. -/
theorem upload_skips_image_validation_witness :
    pyStartsWith "image/jpeg" "image/" = true ∧
    constVerify (Except.error "cannot identify image file") sampleBytes =
      Except.error "cannot identify image file" ∧
    ((diagnose_crop (constPredict sampleDi 50 none) "pumpkin"
        ⟨"image/jpeg", "leaf.jpg", sampleBytes⟩).2 =
      [Step.predictCall "pumpkin" sampleBytes] ∧
     statusOf (diagnose_crop (constPredict sampleDi 50 none) "pumpkin"
        ⟨"image/jpeg", "leaf.jpg", sampleBytes⟩).1 ≠ 400 ∧
     statusOf (diagnose_by_url (constPredict sampleDi 50 none)
        (constFetch (Except.ok sampleBytes))
        (constVerify (Except.error "cannot identify image file"))
        "pumpkin" ⟨"http://h/img.jpg"⟩).1 = 400 ∧
     calledPredict (diagnose_by_url (constPredict sampleDi 50 none)
        (constFetch (Except.ok sampleBytes))
        (constVerify (Except.error "cannot identify image file"))
        "pumpkin" ⟨"http://h/img.jpg"⟩).2 = false) :=
  ⟨rfl, rfl, upload_skips_image_validation (constPredict sampleDi 50 none)
    (constFetch (Except.ok sampleBytes))
    (constVerify (Except.error "cannot identify image file"))
    "pumpkin" "image/jpeg" "leaf.jpg" "http://h/img.jpg"
    "cannot identify image file" sampleBytes rfl rfl rfl⟩
